import Mathlib

/-!
# SYCL/CUDA stream: attachment, handle synchronisation, interop submission

Shallow embedding of `src/gpu/nvidia/sycl_cuda_stream.cpp`
(`sycl_cuda_stream_t::init` and `sycl_cuda_stream_t::interop_task`).

Conventions of the embedding.

* Native identities (`CUdevice`, `CUcontext`, `CUstream`) are opaque handles that the
  code only compares; they are natural numbers here.
* A SYCL object (`device`, `context`, `queue`) is a record holding what the code reads
  from it.  `cl::sycl::get_native` is the projection `native`.
* The engine and the stream are passed and returned explicitly; `init` and
  `interop_task` return the outcome together with the new stream, the new engine
  and the list of effects performed, in program order.
* `assert(c)` depends on the build: the value of `c` at that program point is
  recorded as the effect `assertion c`; when `NDEBUG` is not defined and `c` is
  false, the call ends there with the outcome `aborted` (no destructor runs); when
  `NDEBUG` is defined the assertion has no influence on control flow.
* A C++ exception leaving a function is the outcome `threw`; dereferencing an empty
  pointer is the outcome `undefined`.
-/

namespace nvidia

/-- Native CUDA stream handle. -/
abbrev CUstream := Nat

/-- Native CUDA context handle. -/
abbrev CUcontext := Nat

/-- Native CUDA device handle. -/
abbrev CUdevice := Nat

/-- A `cl::sycl::event`, identified by a number. -/
abbrev sycl_event := Nat

/-- The body `std::function<void(cl::sycl::handler &)>` handed to `interop_task`,
identified by a number. -/
abbrev task_t := Nat

/-- Status codes (`status_t`); the enumeration is declared outside the source file. -/
inductive status_t
  | success
  | out_of_memory
  | invalid_arguments
  | unimplemented
  | runtime_error
  deriving DecidableEq, Repr

/-- Engine kinds (`engine_kind_t`). -/
inductive engine_kind_t
  | any_engine
  | cpu
  | gpu
  deriving DecidableEq, Repr

/-- A `cl::sycl::device`: object identity, native device, and `is_gpu()`. -/
structure device where
  id : Nat
  native : CUdevice
  is_gpu : Bool
  deriving DecidableEq, Repr

/-- A `cl::sycl::context`: object identity and native context.  `==` on SYCL
contexts is equality of the records. -/
structure context where
  id : Nat
  native : CUcontext
  deriving DecidableEq, Repr

/-- A `cl::sycl::queue`: its context, its device and its native stream. -/
structure queue where
  get_context : context
  get_device : device
  native : CUstream
  deriving DecidableEq, Repr

/-- The fields of `sycl_cuda_stream_t` the code reads and writes: `flags()`,
the owning pointer `queue_` (empty when no queue was supplied) and the
dependency set written by `set_deps`. -/
structure sycl_cuda_stream_t where
  flags : Nat
  queue_ : Option queue
  deps : List sycl_event
  deriving DecidableEq, Repr

/-- The part of `sycl_cuda_engine_t` that `init` consults: kind, SYCL context and
device, the result of `get_service_stream` (status and the pointer it stores),
and the native stream each cached library handle is bound to. -/
structure sycl_cuda_engine_t where
  kind : engine_kind_t
  context : context
  device : device
  service_stream_status : status_t
  service_stream : Option sycl_cuda_stream_t
  cublas_stream : CUstream
  cudnn_stream : CUstream
  deriving DecidableEq, Repr

/-- Bit values of `stream_flags::in_order` and `stream_flags::out_of_order`.  The
enumeration is declared outside the source file, so the values are parameters. -/
structure stream_flags_t where
  in_order : Nat
  out_of_order : Nat
  deriving DecidableEq, Repr

/-- What `queue().submit(...)` does: it returns an event, throws a
`std::runtime_error` carrying `what()`, or throws an exception of another type. -/
inductive submit_result
  | ok (ev : sycl_event)
  | runtime_error (what : String)
  | other_exception
  deriving DecidableEq, Repr

/-- Build configuration, and behaviour of the calls into the SYCL runtime and the
CUDA libraries, all of which are outside the source file.

* `ndebug`: whether `NDEBUG` is defined, so that `assert` expands to nothing;
* `new_queue`: the native stream of the queue built by
  `new cl::sycl::queue(ctx, dev)`, or `none` when the constructor throws;
* `*_ok`: whether the native call reports success (otherwise the `*_EXECUTE_FUNC`
  wrapper throws);
* `submit`: the behaviour of `queue::submit` on a queue and a body;
* `wrap_c_api_returns`: whether `error::wrap_c_api(status, message)` returns
  normally (otherwise it throws). -/
structure runtime_t where
  ndebug : Bool
  new_queue : Option CUstream
  cudnnGetStream_ok : Bool
  cudnnSetStream_ok : Bool
  cublasGetStream_ok : Bool
  cublasSetStream_ok : Bool
  submit : queue → task_t → submit_result
  wrap_c_api_returns : status_t → String → Bool

/-- Observable effects, recorded in program order. -/
inductive effect_t
  | queue_created (q : queue)
  | scoped_context_enter
  | scoped_context_exit
  | assertion (holds : Bool)
  | cudnnGetStream
  | cudnnSetStream (streamId : CUstream)
  | cublasGetStream
  | cublasSetStream (streamId : CUstream)
  | submit (task : task_t)
  | set_deps (deps : List sycl_event)
  | wrap_c_api (st : status_t) (what : String)
  deriving DecidableEq, Repr

/-- How a call ends. -/
inductive outcome_t
  | returned (st : status_t)
  | threw
  | undefined
  | aborted
  deriving DecidableEq, Repr

/-- Result of a call: outcome, stream and engine afterwards, effects performed. -/
structure result_t where
  out : outcome_t
  stream : sycl_cuda_stream_t
  engine : sycl_cuda_engine_t
  trace : List effect_t
  deriving DecidableEq, Repr

/-- Modelled from the spec: the macro `IMPLICATION(cause, effect)` is defined outside
the source file; it is the implication "if the Engine's kind requires GPU
capability, the queue's device must report GPU capability". -/
def IMPLICATION (cause effect : Bool) : Bool :=
  !cause || effect

/-- `sycl_cuda_stream_t::get_underlying_stream`: the native stream of `*queue_`
(`none` when `queue_` is empty). -/
def get_underlying_stream (s : sycl_cuda_stream_t) : Option CUstream :=
  s.queue_.map (fun q => q.native)

/-- `sycl_cuda_stream_t::get_underlying_context`: the native context of
`queue_->get_context()` (`none` when `queue_` is empty). -/
def get_underlying_context (s : sycl_cuda_stream_t) : Option CUcontext :=
  s.queue_.map (fun q => q.get_context.native)

/-- Number of handle rebinds (`cudnnSetStream`, `cublasSetStream`) in a trace. -/
def rebind_count : List effect_t → Nat
  | [] => 0
  | effect_t.cudnnSetStream _ :: t => rebind_count t + 1
  | effect_t.cublasSetStream _ :: t => rebind_count t + 1
  | _ :: t => rebind_count t

/-- Lines 97-101 of `init`: query the stream bound to the cuBLAS handle, rebind it
when it differs from `streamId`, leave the scoped context and return `status`. -/
def sync_cublas_handle (rt : runtime_t) (e : sycl_cuda_engine_t) (s : sycl_cuda_stream_t)
    (streamId : CUstream) (status : status_t) (pre : List effect_t) : result_t :=
  if rt.cublasGetStream_ok = false then
    ⟨outcome_t.threw, s, e, pre ++ [effect_t.cublasGetStream, effect_t.scoped_context_exit]⟩
  else
    let current_stream_id := e.cublas_stream
    if current_stream_id ≠ streamId then
      if rt.cublasSetStream_ok = false then
        ⟨outcome_t.threw, s, e, pre ++ [effect_t.cublasGetStream,
          effect_t.cublasSetStream streamId, effect_t.scoped_context_exit]⟩
      else
        ⟨outcome_t.returned status, s, { e with cublas_stream := streamId },
          pre ++ [effect_t.cublasGetStream, effect_t.cublasSetStream streamId,
            effect_t.scoped_context_exit]⟩
    else
      ⟨outcome_t.returned status, s, e,
        pre ++ [effect_t.cublasGetStream, effect_t.scoped_context_exit]⟩

/-- Lines 86-101 of `init`, the code after the `if (!queue_) ... else ...`: enter
the scoped context, evaluate the assertion of line 90 (in a build without `NDEBUG`
a false assertion aborts, before any call into cuDNN or cuBLAS), synchronise the
cuDNN handle (lines 92-95) and continue with the cuBLAS handle.  `q` is `*queue_`. -/
def sync_handles (rt : runtime_t) (e : sycl_cuda_engine_t) (s : sycl_cuda_stream_t)
    (q : queue) (status : status_t) (pre : List effect_t) : result_t :=
  let streamId := q.native
  let entered := pre ++ [effect_t.scoped_context_enter,
    effect_t.assertion (decide (e.context = q.get_context))]
  if rt.ndebug = false ∧ e.context ≠ q.get_context then
    ⟨outcome_t.aborted, s, e, entered⟩
  else
    let t := entered ++ [effect_t.cudnnGetStream]
    if rt.cudnnGetStream_ok = false then
      ⟨outcome_t.threw, s, e, t ++ [effect_t.scoped_context_exit]⟩
    else
      let current_stream_id := e.cudnn_stream
      if current_stream_id ≠ streamId then
        if rt.cudnnSetStream_ok = false then
          ⟨outcome_t.threw, s, e,
            t ++ [effect_t.cudnnSetStream streamId, effect_t.scoped_context_exit]⟩
        else
          sync_cublas_handle rt { e with cudnn_stream := streamId } s streamId status
            (t ++ [effect_t.cudnnSetStream streamId])
      else
        sync_cublas_handle rt e s streamId status t

/-- `sycl_cuda_stream_t::init` (lines 46-102). -/
def init (sf : stream_flags_t) (rt : runtime_t) (e : sycl_cuda_engine_t)
    (s : sycl_cuda_stream_t) : result_t :=
  if s.flags &&& sf.in_order = 0 ∧ s.flags &&& sf.out_of_order = 0 then
    ⟨outcome_t.returned status_t.invalid_arguments, s, e, []⟩
  else
    match s.queue_ with
    | none =>
      match rt.new_queue with
      | none => ⟨outcome_t.threw, s, e, []⟩
      | some n =>
        let q : queue := ⟨e.context, e.device, n⟩
        sync_handles rt e { s with queue_ := some q } q status_t.success
          [effect_t.queue_created q]
    | some q =>
      let queue_streamId := q.native
      let sycl_dev := q.get_device
      let _args_ok := IMPLICATION (decide (e.kind = engine_kind_t.gpu)) sycl_dev.is_gpu
      if sycl_dev.is_gpu = false then
        ⟨outcome_t.returned status_t.invalid_arguments, s, e, []⟩
      else
        let queue_context := q.get_context.native
        let queue_device := sycl_dev.native
        let engine_context := e.context.native
        let engine_device := e.device.native
        if e.service_stream_status ≠ status_t.success then
          ⟨outcome_t.returned e.service_stream_status, s, e, []⟩
        else
          match e.service_stream with
          | none => ⟨outcome_t.undefined, s, e, []⟩
          | some cuda_stream =>
            match cuda_stream.queue_ with
            | none => ⟨outcome_t.undefined, s, e, []⟩
            | some service_queue =>
              let engine_streamId := service_queue.native
              let status :=
                if engine_device ≠ queue_device ∨ engine_context ≠ queue_context
                    ∨ engine_streamId ≠ queue_streamId
                then status_t.invalid_arguments else status_t.success
              sync_handles rt e s q status []

/-- Modelled from the spec: `set_deps` belongs to the base stream class, outside the
source file; it "replaces the Stream's dependency token" with the given set. -/
def set_deps (s : sycl_cuda_stream_t) (deps : List sycl_event) : sycl_cuda_stream_t :=
  { s with deps := deps }

/-- `sycl_cuda_stream_t::interop_task` (lines 104-114).  The engine is not touched
and is passed through. -/
def interop_task (rt : runtime_t) (e : sycl_cuda_engine_t) (s : sycl_cuda_stream_t)
    (sycl_cuda_interop_ : task_t) : result_t :=
  match s.queue_ with
  | none => ⟨outcome_t.undefined, s, e, []⟩
  | some q =>
    match rt.submit q sycl_cuda_interop_ with
    | submit_result.ok ev =>
      ⟨outcome_t.returned status_t.success, set_deps s [ev], e,
        [effect_t.submit sycl_cuda_interop_, effect_t.set_deps [ev]]⟩
    | submit_result.runtime_error what =>
      if rt.wrap_c_api_returns status_t.runtime_error what = true then
        ⟨outcome_t.returned status_t.runtime_error, s, e,
          [effect_t.submit sycl_cuda_interop_,
            effect_t.wrap_c_api status_t.runtime_error what]⟩
      else
        ⟨outcome_t.threw, s, e,
          [effect_t.submit sycl_cuda_interop_,
            effect_t.wrap_c_api status_t.runtime_error what]⟩
    | submit_result.other_exception =>
      ⟨outcome_t.threw, s, e, [effect_t.submit sycl_cuda_interop_]⟩

/-- Number of `queue::submit` calls in a trace. -/
def submit_count : List effect_t → Nat
  | [] => 0
  | effect_t.submit _ :: t => submit_count t + 1
  | _ :: t => submit_count t

/-- Number of `set_deps` calls in a trace. -/
def set_deps_count : List effect_t → Nat
  | [] => 0
  | effect_t.set_deps _ :: t => set_deps_count t + 1
  | _ :: t => set_deps_count t

/-! ## Sample data: the scenario of the specification

Engine `E` has native device `11`, native context `21` and a service stream whose
native identity is `100`; its handles start out bound to streams `7` and `8`. -/

/-- Flag bits `in_order = 0x1`, `out_of_order = 0x2`. -/
def sample_flags : stream_flags_t := ⟨1, 2⟩

/-- Device `D1` (a GPU). -/
def sample_device : device := ⟨1, 11, true⟩

/-- Context `C1`. -/
def sample_context : context := ⟨1, 21⟩

/-- The queue owned by the service stream, native identity `N0 = 100`. -/
def sample_service_queue : queue := ⟨sample_context, sample_device, 100⟩

/-- The service stream `S0`. -/
def sample_service_stream : sycl_cuda_stream_t := ⟨1, some sample_service_queue, []⟩

/-- Engine `E` of kind GPU, handles bound to streams `7` (cuBLAS) and `8` (cuDNN). -/
def sample_engine : sycl_cuda_engine_t :=
  ⟨engine_kind_t.gpu, sample_context, sample_device, status_t.success,
    some sample_service_stream, 7, 8⟩

/-- A build with assertions enabled in which every native call succeeds; a new
queue gets native stream `200`, submitting body `t` yields event `t + 1`, and
`error::wrap_c_api` returns only for the status `success`. -/
def sample_runtime : runtime_t :=
  ⟨false, some 200, true, true, true, true, fun _ t => submit_result.ok (t + 1),
    fun st _ => decide (st = status_t.success)⟩

/-- The same runtime in a build with `NDEBUG` defined. -/
def release_runtime : runtime_t :=
  { sample_runtime with ndebug := true }

/-- A runtime whose `submit` throws `std::runtime_error("cuda failure")` and whose
`error::wrap_c_api` returns only for the status `success`. -/
def failing_runtime : runtime_t :=
  ⟨false, some 200, true, true, true, true,
    fun _ _ => submit_result.runtime_error "cuda failure",
    fun st _ => decide (st = status_t.success)⟩

/-- An in-order stream constructed without a queue. -/
def fresh_stream : sycl_cuda_stream_t := ⟨1, none, []⟩

/-- An in-order stream adopting a queue with the engine's device, context and the
service stream's native identity. -/
def adopted_stream : sycl_cuda_stream_t :=
  ⟨1, some ⟨sample_context, sample_device, 100⟩, [5]⟩

/-! ## Lemmas on the handle synchronisation -/

theorem rebind_count_append (a b : List effect_t) :
    rebind_count (a ++ b) = rebind_count a + rebind_count b := by
  induction a with
  | nil => simp [rebind_count]
  | cons x t ih =>
    cases x <;> simp [rebind_count, ih] <;> omega

/-- When the cuBLAS step returns, it returns `status`, the cuBLAS handle is bound to
`streamId`, and nothing else changed. -/
theorem sync_cublas_handle_returned (rt : runtime_t) (e : sycl_cuda_engine_t)
    (s : sycl_cuda_stream_t) (streamId : CUstream) (status st : status_t)
    (pre : List effect_t)
    (h : (sync_cublas_handle rt e s streamId status pre).out = outcome_t.returned st) :
    st = status
      ∧ (sync_cublas_handle rt e s streamId status pre).engine.cublas_stream = streamId
      ∧ (sync_cublas_handle rt e s streamId status pre).engine.cudnn_stream = e.cudnn_stream
      ∧ (sync_cublas_handle rt e s streamId status pre).stream = s := by
  unfold sync_cublas_handle at h ⊢
  by_cases h1 : rt.cublasGetStream_ok = false
  · simp [h1] at h
  · by_cases h2 : e.cublas_stream = streamId
    · simp [h1, h2] at h ⊢
      exact h.symm
    · by_cases h3 : rt.cublasSetStream_ok = false
      · simp [h1, h2, h3] at h
      · simp [h1, h2, h3] at h ⊢
        exact h.symm

/-- When the handle synchronisation returns, it returns `status`, both handles are
bound to the queue's native stream, and the stream is unchanged. -/
theorem sync_handles_returned (rt : runtime_t) (e : sycl_cuda_engine_t)
    (s : sycl_cuda_stream_t) (q : queue) (status st : status_t) (pre : List effect_t)
    (h : (sync_handles rt e s q status pre).out = outcome_t.returned st) :
    st = status
      ∧ (sync_handles rt e s q status pre).engine.cublas_stream = q.native
      ∧ (sync_handles rt e s q status pre).engine.cudnn_stream = q.native
      ∧ (sync_handles rt e s q status pre).stream = s := by
  unfold sync_handles at h ⊢
  by_cases h0 : rt.ndebug = false ∧ e.context ≠ q.get_context
  · simp [h0] at h
  · by_cases h1 : rt.cudnnGetStream_ok = false
    · simp [h0, h1] at h
    · by_cases h2 : e.cudnn_stream = q.native
      · simp only [h0, h1, h2, if_false, ne_eq, not_true_eq_false] at h ⊢
        have := sync_cublas_handle_returned _ _ _ _ _ _ _ h
        simpa [h2] using this
      · by_cases h3 : rt.cudnnSetStream_ok = false
        · simp [h0, h1, h2, h3] at h
        · simp only [h0, h1, h2, h3, if_false, ne_eq, not_false_eq_true, if_true] at h ⊢
          have := sync_cublas_handle_returned _ _ _ _ _ _ _ h
          simpa using this

/-- When the assertion does not abort (it is compiled out, or it holds) and no
native call fails, the handle synchronisation returns `status`. -/
theorem sync_handles_ok (rt : runtime_t) (e : sycl_cuda_engine_t)
    (s : sycl_cuda_stream_t) (q : queue) (status : status_t) (pre : List effect_t)
    (h0 : rt.ndebug = true ∨ e.context = q.get_context)
    (h1 : rt.cudnnGetStream_ok = true) (h2 : rt.cudnnSetStream_ok = true)
    (h3 : rt.cublasGetStream_ok = true) (h4 : rt.cublasSetStream_ok = true) :
    (sync_handles rt e s q status pre).out = outcome_t.returned status := by
  have h0n : ¬(rt.ndebug = false ∧ e.context ≠ q.get_context) := by
    rintro ⟨a, b⟩
    rcases h0 with h0 | h0
    · simp [a] at h0
    · exact b h0
  unfold sync_handles sync_cublas_handle
  by_cases c1 : e.cudnn_stream = q.native <;> by_cases c2 : e.cublas_stream = q.native <;>
    simp [h0n, h1, h2, h3, h4, c1, c2]

/-- In a build with assertions enabled, a queue whose context is not the engine's
makes the handle synchronisation abort at the assertion: no native call is made,
nothing is rebound and no status is returned. -/
theorem sync_handles_aborts (rt : runtime_t) (e : sycl_cuda_engine_t)
    (s : sycl_cuda_stream_t) (q : queue) (status : status_t) (pre : List effect_t)
    (hd : rt.ndebug = false) (hc : e.context ≠ q.get_context) :
    sync_handles rt e s q status pre
      = ⟨outcome_t.aborted, s, e,
          pre ++ [effect_t.scoped_context_enter, effect_t.assertion false]⟩ := by
  unfold sync_handles
  simp [hd, hc]

/-- When both handles are already bound to the queue's native stream, the handle
synchronisation performs no rebind and leaves the engine as it is, whether or not
the native queries succeed. -/
theorem sync_handles_bound (rt : runtime_t) (e : sycl_cuda_engine_t)
    (s : sycl_cuda_stream_t) (q : queue) (status : status_t) (pre : List effect_t)
    (h1 : e.cudnn_stream = q.native) (h2 : e.cublas_stream = q.native) :
    rebind_count (sync_handles rt e s q status pre).trace = rebind_count pre
      ∧ (sync_handles rt e s q status pre).engine = e := by
  unfold sync_handles sync_cublas_handle
  by_cases c0 : rt.ndebug = false ∧ e.context ≠ q.get_context <;>
    by_cases c1 : rt.cudnnGetStream_ok = false <;>
    by_cases c2 : rt.cublasGetStream_ok = false <;>
    simp [h1, h2, c0, c1, c2, rebind_count_append, rebind_count]

/-- When the handle synchronisation returns, the engine differs from the one it
started from only in the two handle bindings. -/
theorem sync_handles_engine (rt : runtime_t) (e : sycl_cuda_engine_t)
    (s : sycl_cuda_stream_t) (q : queue) (status st : status_t) (pre : List effect_t)
    (h : (sync_handles rt e s q status pre).out = outcome_t.returned st) :
    (sync_handles rt e s q status pre).engine
      = { e with cublas_stream := q.native, cudnn_stream := q.native } := by
  unfold sync_handles sync_cublas_handle at h ⊢
  by_cases c0 : rt.ndebug = false ∧ e.context ≠ q.get_context
  · simp [c0] at h
  by_cases c1 : rt.cudnnGetStream_ok = false <;>
    by_cases c2 : rt.cublasGetStream_ok = false <;>
    by_cases c3 : rt.cudnnSetStream_ok = false <;>
    by_cases c4 : rt.cublasSetStream_ok = false <;>
    by_cases c5 : e.cudnn_stream = q.native <;>
    by_cases c6 : e.cublas_stream = q.native <;>
    simp [c0, c1, c2, c3, c4, c5, c6] at h ⊢ <;>
    (cases e; simp_all)

/-- On a stream that has a queue to whose native stream both handles are already
bound, `init` performs no rebind and leaves the engine as it is. -/
theorem init_bound (sf : stream_flags_t) (rt : runtime_t) (e : sycl_cuda_engine_t)
    (s : sycl_cuda_stream_t) (q : queue) (hq : s.queue_ = some q)
    (h1 : e.cudnn_stream = q.native) (h2 : e.cublas_stream = q.native) :
    rebind_count (init sf rt e s).trace = 0 ∧ (init sf rt e s).engine = e := by
  unfold init
  split
  · simp [rebind_count]
  · simp only [hq]
    split
    · simp [rebind_count]
    · split
      · simp [rebind_count]
      · split
        · simp [rebind_count]
        · split
          · simp [rebind_count]
          · have key := fun st => sync_handles_bound rt e s q st [] h1 h2
            simpa [rebind_count] using key _

/-! ## Flag check and queue creation -/

/-- C4: when neither the in-order bit nor the out-of-order bit is set, `init` returns
`invalid_arguments` and has no effect: the stream (its queue included) and the
engine (both handle bindings included) are returned as they were and the trace is
empty, so no queue was created, no handle was rebound and the scoped context was
never entered. -/
theorem init_rejects_empty_flags (sf : stream_flags_t) (rt : runtime_t)
    (e : sycl_cuda_engine_t) (s : sycl_cuda_stream_t)
    (h1 : s.flags &&& sf.in_order = 0) (h2 : s.flags &&& sf.out_of_order = 0) :
    (init sf rt e s).out = outcome_t.returned status_t.invalid_arguments
      ∧ (init sf rt e s).stream = s
      ∧ (init sf rt e s).stream.queue_ = s.queue_
      ∧ (init sf rt e s).engine = e
      ∧ (init sf rt e s).engine.cudnn_stream = e.cudnn_stream
      ∧ (init sf rt e s).engine.cublas_stream = e.cublas_stream
      ∧ (init sf rt e s).trace = []
      ∧ rebind_count (init sf rt e s).trace = 0
      ∧ effect_t.scoped_context_enter ∉ (init sf rt e s).trace := by
  unfold init
  simp [h1, h2, rebind_count]

theorem init_rejects_empty_flags_witness :
    (4 &&& sample_flags.in_order = 0 ∧ 4 &&& sample_flags.out_of_order = 0)
      ∧ (init sample_flags sample_runtime sample_engine ⟨4, none, []⟩).out
        = outcome_t.returned status_t.invalid_arguments
      ∧ (init sample_flags sample_runtime sample_engine ⟨4, none, []⟩).trace = [] :=
  have h := init_rejects_empty_flags sample_flags sample_runtime sample_engine
    ⟨4, none, []⟩ (by decide) (by decide)
  ⟨by decide, h.1, h.2.2.2.2.2.2.1⟩

/-- C6: on a stream constructed without a queue whose flags contain in-order or
out-of-order, `init` returns `success` when no native call fails, and afterwards
the stream owns a queue created from the engine's context and device (it is the
first effect of the call), so the queue's native device and native context are the
engine's (invariant I1). -/
theorem init_creates_queue (sf : stream_flags_t) (rt : runtime_t)
    (e : sycl_cuda_engine_t) (s : sycl_cuda_stream_t) (n : CUstream)
    (hq : s.queue_ = none)
    (hf : s.flags &&& sf.in_order ≠ 0 ∨ s.flags &&& sf.out_of_order ≠ 0)
    (hn : rt.new_queue = some n)
    (h1 : rt.cudnnGetStream_ok = true) (h2 : rt.cudnnSetStream_ok = true)
    (h3 : rt.cublasGetStream_ok = true) (h4 : rt.cublasSetStream_ok = true) :
    (init sf rt e s).out = outcome_t.returned status_t.success
      ∧ ∃ q : queue, (init sf rt e s).stream.queue_ = some q
          ∧ (init sf rt e s).trace.head? = some (effect_t.queue_created q)
          ∧ q.get_context = e.context ∧ q.get_device = e.device
          ∧ q.get_device.native = (init sf rt e s).engine.device.native
          ∧ q.get_context.native = (init sf rt e s).engine.context.native := by
  have hflags : ¬(s.flags &&& sf.in_order = 0 ∧ s.flags &&& sf.out_of_order = 0) := by
    rintro ⟨a, b⟩
    rcases hf with hf | hf
    · exact hf a
    · exact hf b
  have hok := sync_handles_ok rt e { s with queue_ := some ⟨e.context, e.device, n⟩ }
    ⟨e.context, e.device, n⟩ status_t.success
    [effect_t.queue_created ⟨e.context, e.device, n⟩] (Or.inr rfl) h1 h2 h3 h4
  have hret := sync_handles_returned rt e { s with queue_ := some ⟨e.context, e.device, n⟩ }
    ⟨e.context, e.device, n⟩ status_t.success status_t.success
    [effect_t.queue_created ⟨e.context, e.device, n⟩] hok
  have heng := sync_handles_engine rt e { s with queue_ := some ⟨e.context, e.device, n⟩ }
    ⟨e.context, e.device, n⟩ status_t.success status_t.success
    [effect_t.queue_created ⟨e.context, e.device, n⟩] hok
  have hinit : init sf rt e s
      = sync_handles rt e { s with queue_ := some ⟨e.context, e.device, n⟩ }
          ⟨e.context, e.device, n⟩ status_t.success
          [effect_t.queue_created ⟨e.context, e.device, n⟩] := by
    unfold init
    simp [hflags, hq, hn]
  rw [hinit]
  refine ⟨hok, ⟨e.context, e.device, n⟩, ?_, ?_, rfl, rfl, ?_, ?_⟩
  · rw [hret.2.2.2]
  · unfold sync_handles sync_cublas_handle
    by_cases c1 : e.cudnn_stream = n <;> by_cases c2 : e.cublas_stream = n <;>
      simp [h1, h2, h3, h4, c1, c2]
  · rw [heng]
  · rw [heng]

theorem init_creates_queue_witness :
    (init sample_flags sample_runtime sample_engine fresh_stream).out
        = outcome_t.returned status_t.success
      ∧ ∃ q : queue,
          (init sample_flags sample_runtime sample_engine fresh_stream).stream.queue_ = some q
          ∧ (init sample_flags sample_runtime sample_engine fresh_stream).trace.head?
              = some (effect_t.queue_created q)
          ∧ q.get_context = sample_engine.context ∧ q.get_device = sample_engine.device
          ∧ q.get_device.native
              = (init sample_flags sample_runtime sample_engine fresh_stream).engine.device.native
          ∧ q.get_context.native
              = (init sample_flags sample_runtime sample_engine fresh_stream).engine.context.native :=
  init_creates_queue sample_flags sample_runtime sample_engine fresh_stream 200 rfl
    (Or.inl (by decide)) rfl rfl rfl rfl rfl

/-! ## Shape of a call to `init` -/

/-- A call to `init` either leaves early, with a result other than `success`, the
stream and the engine untouched and no effect, or it is a handle synchronisation
on a stream that (now) has a queue and the flags of the original stream. -/
theorem init_cases (sf : stream_flags_t) (rt : runtime_t) (e : sycl_cuda_engine_t)
    (s : sycl_cuda_stream_t) :
    (∃ o, init sf rt e s = ⟨o, s, e, []⟩ ∧ o ≠ outcome_t.returned status_t.success)
      ∨ ∃ s1 q status pre, init sf rt e s = sync_handles rt e s1 q status pre
          ∧ s1.queue_ = some q ∧ s1.flags = s.flags ∧ s1.deps = s.deps
          ∧ rebind_count pre = 0 := by
  by_cases hflags : s.flags &&& sf.in_order = 0 ∧ s.flags &&& sf.out_of_order = 0
  · left
    exact ⟨outcome_t.returned status_t.invalid_arguments, by simp [init, hflags], by simp⟩
  · cases hq : s.queue_ with
    | none =>
      cases hn : rt.new_queue with
      | none =>
        left
        exact ⟨outcome_t.threw, by simp [init, hflags, hq, hn], by simp⟩
      | some n =>
        right
        exact ⟨{ s with queue_ := some ⟨e.context, e.device, n⟩ }, ⟨e.context, e.device, n⟩,
          status_t.success, [effect_t.queue_created ⟨e.context, e.device, n⟩],
          by simp [init, hflags, hq, hn], rfl, rfl, rfl, by simp [rebind_count]⟩
    | some q =>
      by_cases hgpu : q.get_device.is_gpu = false
      · left
        exact ⟨outcome_t.returned status_t.invalid_arguments,
          by simp [init, hflags, hq, hgpu], by simp⟩
      · by_cases hst : e.service_stream_status = status_t.success
        · cases hsvc : e.service_stream with
          | none =>
            left
            exact ⟨outcome_t.undefined, by simp [init, hflags, hq, hgpu, hst, hsvc], by simp⟩
          | some svc =>
            cases hsq : svc.queue_ with
            | none =>
              left
              exact ⟨outcome_t.undefined,
                by simp [init, hflags, hq, hgpu, hst, hsvc, hsq], by simp⟩
            | some sq =>
              right
              exact ⟨s, q, _, [], by simp [init, hflags, hq, hgpu, hst, hsvc, hsq]; rfl,
                hq, rfl, rfl, by simp [rebind_count]⟩
        · left
          exact ⟨outcome_t.returned e.service_stream_status,
            by simp [init, hflags, hq, hgpu, hst], by simpa using hst⟩

/-! ## Successful attachment -/

/-- C2: whenever `init` returns `success`, in the resulting state the stream has a
queue and the cuDNN handle and the cuBLAS handle are both bound to the native
stream of that queue (`get_underlying_stream`), whatever they were bound to before
the call (invariant I3). -/
theorem init_success_binds_handles (sf : stream_flags_t) (rt : runtime_t)
    (e : sycl_cuda_engine_t) (s : sycl_cuda_stream_t)
    (h : (init sf rt e s).out = outcome_t.returned status_t.success) :
    get_underlying_stream (init sf rt e s).stream
        = some (init sf rt e s).engine.cudnn_stream
      ∧ get_underlying_stream (init sf rt e s).stream
        = some (init sf rt e s).engine.cublas_stream := by
  rcases init_cases sf rt e s with ⟨o, ho, hne⟩ | ⟨s1, q, status, pre, ho, hq, -, -, -⟩
  · rw [ho] at h
    exact absurd h hne
  · rw [ho] at h ⊢
    have r := sync_handles_returned _ _ _ _ _ _ _ h
    simp [r.2.1, r.2.2.1, r.2.2.2, get_underlying_stream, hq]

theorem init_success_binds_handles_witness :
    (init sample_flags sample_runtime sample_engine adopted_stream).out
        = outcome_t.returned status_t.success
      ∧ get_underlying_stream
          (init sample_flags sample_runtime sample_engine adopted_stream).stream
        = some (init sample_flags sample_runtime sample_engine adopted_stream).engine.cudnn_stream
      ∧ get_underlying_stream
          (init sample_flags sample_runtime sample_engine adopted_stream).stream
        = some
          (init sample_flags sample_runtime sample_engine adopted_stream).engine.cublas_stream :=
  ⟨by decide,
    init_success_binds_handles sample_flags sample_runtime sample_engine adopted_stream
      (by decide)⟩

/-! ## Validation of an adopted queue -/

/-- For an adopted queue that passes lines 60-78, `init` is the handle
synchronisation run with the verdict of the identity comparison of lines 79-83. -/
theorem init_adopted_queue_eq (sf : stream_flags_t) (rt : runtime_t)
    (e : sycl_cuda_engine_t) (s svc : sycl_cuda_stream_t) (q sq : queue)
    (hf : s.flags &&& sf.in_order ≠ 0 ∨ s.flags &&& sf.out_of_order ≠ 0)
    (hq : s.queue_ = some q) (hgpu : q.get_device.is_gpu = true)
    (hst : e.service_stream_status = status_t.success)
    (hsvc : e.service_stream = some svc) (hsq : svc.queue_ = some sq) :
    init sf rt e s = sync_handles rt e s q
      (if e.device.native ≠ q.get_device.native ∨ e.context.native ≠ q.get_context.native
          ∨ sq.native ≠ q.native
        then status_t.invalid_arguments else status_t.success) [] := by
  have hflags : ¬(s.flags &&& sf.in_order = 0 ∧ s.flags &&& sf.out_of_order = 0) := by
    rintro ⟨a, b⟩
    rcases hf with hf | hf
    · exact hf a
    · exact hf b
  simp only [init, hflags, hq, hgpu, hst, hsvc, hsq]
  simp

/-- In a build with assertions enabled, an adopted queue that passes lines 60-78 and
whose context is not the engine's makes `init` abort at line 90, whatever the
identity comparison of lines 79-83 found: no status is returned. -/
theorem init_adopted_queue_aborts (sf : stream_flags_t) (rt : runtime_t)
    (e : sycl_cuda_engine_t) (s svc : sycl_cuda_stream_t) (q sq : queue)
    (hf : s.flags &&& sf.in_order ≠ 0 ∨ s.flags &&& sf.out_of_order ≠ 0)
    (hq : s.queue_ = some q) (hgpu : q.get_device.is_gpu = true)
    (hst : e.service_stream_status = status_t.success)
    (hsvc : e.service_stream = some svc) (hsq : svc.queue_ = some sq)
    (hd : rt.ndebug = false) (hc : e.context ≠ q.get_context) :
    init sf rt e s
      = ⟨outcome_t.aborted, s, e, [effect_t.scoped_context_enter, effect_t.assertion false]⟩ := by
  rw [init_adopted_queue_eq sf rt e s svc q sq hf hq hgpu hst hsvc hsq,
    sync_handles_aborts rt e s q _ [] hd hc]
  rfl

/-! ## Idempotence of the handle synchronisation -/

theorem rebind_count_eq_zero (t : List effect_t) (h : rebind_count t = 0) :
    (∀ x, effect_t.cudnnSetStream x ∉ t) ∧ (∀ x, effect_t.cublasSetStream x ∉ t) := by
  induction t with
  | nil => simp
  | cons a t ih =>
    cases a <;> simp [rebind_count] at h <;> simp [ih h]

/-- A call to `init` that returns either left early, in the same way under every
behaviour of the native calls, or left both handles bound to the native stream of
the stream's queue. -/
theorem init_returned_shape (sf : stream_flags_t) (rt : runtime_t) (e : sycl_cuda_engine_t)
    (s : sycl_cuda_stream_t) (st : status_t)
    (h : (init sf rt e s).out = outcome_t.returned st) :
    (∀ rt2, init sf rt2 e s = ⟨outcome_t.returned st, s, e, []⟩)
      ∨ ∃ q, (init sf rt e s).stream.queue_ = some q
          ∧ (init sf rt e s).engine.cudnn_stream = q.native
          ∧ (init sf rt e s).engine.cublas_stream = q.native := by
  by_cases hflags : s.flags &&& sf.in_order = 0 ∧ s.flags &&& sf.out_of_order = 0
  · left
    intro rt2
    simp [init, hflags] at h ⊢
    exact h
  · cases hq : s.queue_ with
    | none =>
      cases hn : rt.new_queue with
      | none => simp [init, hflags, hq, hn] at h
      | some n =>
        right
        have hinit : init sf rt e s
            = sync_handles rt e { s with queue_ := some ⟨e.context, e.device, n⟩ }
                ⟨e.context, e.device, n⟩ status_t.success
                [effect_t.queue_created ⟨e.context, e.device, n⟩] := by
          simp [init, hflags, hq, hn]
        rw [hinit] at h ⊢
        have r := sync_handles_returned _ _ _ _ _ _ _ h
        exact ⟨⟨e.context, e.device, n⟩, by rw [r.2.2.2], r.2.2.1, r.2.1⟩
    | some q =>
      by_cases hgpu : q.get_device.is_gpu = false
      · left
        intro rt2
        simp [init, hflags, hq, hgpu] at h ⊢
        exact h
      · by_cases hst : e.service_stream_status = status_t.success
        · cases hsvc : e.service_stream with
          | none => simp [init, hflags, hq, hgpu, hst, hsvc] at h
          | some svc =>
            cases hsq : svc.queue_ with
            | none => simp [init, hflags, hq, hgpu, hst, hsvc, hsq] at h
            | some sq =>
              right
              have hinit : init sf rt e s = sync_handles rt e s q
                  (if e.device.native ≠ q.get_device.native
                      ∨ e.context.native ≠ q.get_context.native ∨ sq.native ≠ q.native
                    then status_t.invalid_arguments else status_t.success) [] := by
                simp only [init, hflags, hq, hgpu, hst, hsvc, hsq]
                simp
              rw [hinit] at h ⊢
              have r := sync_handles_returned _ _ _ _ _ _ _ h
              exact ⟨q, by rw [r.2.2.2, hq], r.2.2.1, r.2.1⟩
        · left
          intro rt2
          simp [init, hflags, hq, hgpu, hst] at h ⊢
          exact h

/-- C9: once a call to `init` has returned, a second call on the stream and engine it
left behind (with the native calls behaving in any way) invokes neither
`cudnnSetStream` nor `cublasSetStream` and leaves both handle bindings as they
were. -/
theorem init_idempotent (sf : stream_flags_t) (rt rt2 : runtime_t)
    (e : sycl_cuda_engine_t) (s : sycl_cuda_stream_t) (st : status_t)
    (h : (init sf rt e s).out = outcome_t.returned st) :
    rebind_count (init sf rt2 (init sf rt e s).engine (init sf rt e s).stream).trace = 0
      ∧ (∀ x, effect_t.cudnnSetStream x
          ∉ (init sf rt2 (init sf rt e s).engine (init sf rt e s).stream).trace)
      ∧ (∀ x, effect_t.cublasSetStream x
          ∉ (init sf rt2 (init sf rt e s).engine (init sf rt e s).stream).trace)
      ∧ (init sf rt2 (init sf rt e s).engine (init sf rt e s).stream).engine.cudnn_stream
          = (init sf rt e s).engine.cudnn_stream
      ∧ (init sf rt2 (init sf rt e s).engine (init sf rt e s).stream).engine.cublas_stream
          = (init sf rt e s).engine.cublas_stream := by
  have key : rebind_count
        (init sf rt2 (init sf rt e s).engine (init sf rt e s).stream).trace = 0
      ∧ (init sf rt2 (init sf rt e s).engine (init sf rt e s).stream).engine
          = (init sf rt e s).engine := by
    rcases init_returned_shape sf rt e s st h with hearly | ⟨q, hq, hdnn, hblas⟩
    · rw [hearly rt]
      simp only
      rw [hearly rt2]
      simp [rebind_count]
    · exact init_bound sf rt2 _ _ q hq hdnn hblas
  have hz := rebind_count_eq_zero _ key.1
  exact ⟨key.1, hz.1, hz.2, by rw [key.2], by rw [key.2]⟩

theorem init_idempotent_witness :
    (init sample_flags sample_runtime sample_engine adopted_stream).out
        = outcome_t.returned status_t.success
      ∧ rebind_count
          (init sample_flags sample_runtime sample_engine adopted_stream).trace = 2
      ∧ rebind_count
        (init sample_flags sample_runtime
          (init sample_flags sample_runtime sample_engine adopted_stream).engine
          (init sample_flags sample_runtime sample_engine adopted_stream).stream).trace = 0 :=
  ⟨by decide, by decide,
    (init_idempotent sample_flags sample_runtime sample_runtime sample_engine adopted_stream
      status_t.success (by decide)).1⟩

/-! ## A rejected adopted queue still reaches the handle synchronisation

Lines 79-83 store the verdict of the identity comparison in `status` and fall
through to line 86; the early returns of lines 49, 64 and 75 have no counterpart
for a mismatch. -/

/-- A GPU device other than the engine's (native device `12`). -/
def foreign_device : device := ⟨2, 12, true⟩

/-- A context other than the engine's (native context `22`). -/
def foreign_context : context := ⟨2, 22⟩

/-- An in-order stream adopting a queue on a foreign device; context and native
stream are the engine's. -/
def device_mismatch_stream : sycl_cuda_stream_t :=
  ⟨1, some ⟨sample_context, foreign_device, 100⟩, []⟩

/-- An in-order stream adopting a queue of a foreign context, with a native stream
of its own (`300`), on the engine's device. -/
def context_mismatch_stream : sycl_cuda_stream_t :=
  ⟨1, some ⟨foreign_context, sample_device, 300⟩, []⟩

/-- An in-order stream adopting a queue on a foreign device, in a foreign context,
with a native stream of its own (`300`). -/
def foreign_queue_stream : sycl_cuda_stream_t :=
  ⟨1, some ⟨foreign_context, foreign_device, 300⟩, []⟩

/-- For an adopted queue that passes lines 60-78, when the assertion does not abort
and no native call fails, both handles are bound to the queue's native stream when
`init` returns, whether the identity comparison of lines 79-83 accepted the queue
or not. -/
theorem init_adopted_queue_binds (sf : stream_flags_t) (rt : runtime_t)
    (e : sycl_cuda_engine_t) (s svc : sycl_cuda_stream_t) (q sq : queue)
    (hf : s.flags &&& sf.in_order ≠ 0 ∨ s.flags &&& sf.out_of_order ≠ 0)
    (hq : s.queue_ = some q) (hgpu : q.get_device.is_gpu = true)
    (hst : e.service_stream_status = status_t.success)
    (hsvc : e.service_stream = some svc) (hsq : svc.queue_ = some sq)
    (h0 : rt.ndebug = true ∨ e.context = q.get_context)
    (h1 : rt.cudnnGetStream_ok = true) (h2 : rt.cudnnSetStream_ok = true)
    (h3 : rt.cublasGetStream_ok = true) (h4 : rt.cublasSetStream_ok = true) :
    (init sf rt e s).engine.cudnn_stream = q.native
      ∧ (init sf rt e s).engine.cublas_stream = q.native := by
  rw [init_adopted_queue_eq sf rt e s svc q sq hf hq hgpu hst hsvc hsq]
  have key := fun status => sync_handles_returned rt e s q status status []
    (sync_handles_ok rt e s q status [] h0 h1 h2 h3 h4)
  exact ⟨(key _).2.2.1, (key _).2.1⟩

/-- C1: on the adopted queue of `device_mismatch_stream`, whose native device `12`
differs from the engine's `11`, `init` returns `invalid_arguments`, yet on the way
it rebinds both handles: cuDNN from stream `8` to `100` and cuBLAS from `7` to
`100` (two rebinds, inside the scoped context).  The queue's context is the
engine's, so the assertion holds and the result is the same with and without
`NDEBUG`.  On `foreign_queue_stream`, where the context differs as well, the build
with `NDEBUG` likewise returns `invalid_arguments` after rebinding both handles,
to stream `300`. -/
theorem init_device_mismatch_rebinds :
    (init sample_flags sample_runtime sample_engine device_mismatch_stream).out
        = outcome_t.returned status_t.invalid_arguments
      ∧ sample_engine.cudnn_stream = 8
      ∧ (init sample_flags sample_runtime sample_engine device_mismatch_stream).engine.cudnn_stream
          = 100
      ∧ sample_engine.cublas_stream = 7
      ∧ (init sample_flags sample_runtime sample_engine device_mismatch_stream).engine.cublas_stream
          = 100
      ∧ (init sample_flags sample_runtime sample_engine device_mismatch_stream).trace
          = [effect_t.scoped_context_enter, effect_t.assertion true, effect_t.cudnnGetStream,
              effect_t.cudnnSetStream 100, effect_t.cublasGetStream,
              effect_t.cublasSetStream 100, effect_t.scoped_context_exit]
      ∧ init sample_flags release_runtime sample_engine device_mismatch_stream
          = init sample_flags sample_runtime sample_engine device_mismatch_stream
      ∧ (init sample_flags release_runtime sample_engine foreign_queue_stream).out
          = outcome_t.returned status_t.invalid_arguments
      ∧ (init sample_flags release_runtime sample_engine foreign_queue_stream).engine.cudnn_stream
          = 300
      ∧ (init sample_flags release_runtime sample_engine foreign_queue_stream).engine.cublas_stream
          = 300 := by
  decide

/-- C3: on the adopted queue of `context_mismatch_stream` (valid flags, a device
that reports GPU capability, service stream obtained, every native call
succeeding), whose native context `22` differs from the engine's `21`, a build
with assertions enabled does not return `invalid_arguments`: the comparison of
lines 79-83 stores that verdict and falls through, and the call aborts at the
assertion of line 90 right after entering the scoped context. -/
theorem init_context_mismatch_aborts :
    (1 &&& sample_flags.in_order ≠ 0
        ∧ context_mismatch_stream = ⟨1, some ⟨foreign_context, sample_device, 300⟩, []⟩
        ∧ sample_device.is_gpu = true
        ∧ foreign_context.native ≠ sample_engine.context.native
        ∧ sample_engine.service_stream_status = status_t.success
        ∧ sample_engine.service_stream = some sample_service_stream
        ∧ sample_service_stream.queue_ = some sample_service_queue
        ∧ sample_runtime.cudnnGetStream_ok = true ∧ sample_runtime.cudnnSetStream_ok = true
        ∧ sample_runtime.cublasGetStream_ok = true ∧ sample_runtime.cublasSetStream_ok = true
        ∧ sample_runtime.ndebug = false)
      ∧ init sample_flags sample_runtime sample_engine context_mismatch_stream
          = ⟨outcome_t.aborted, context_mismatch_stream, sample_engine,
              [effect_t.scoped_context_enter, effect_t.assertion false]⟩
      ∧ (init sample_flags sample_runtime sample_engine context_mismatch_stream).out
          ≠ outcome_t.returned status_t.invalid_arguments := by
  refine ⟨by decide, by decide, by decide⟩

/-- C10: on the adopted queue of `context_mismatch_stream`, whose context differs
from the engine's, `init` gets past every early return and reaches the assertion
of line 90 with the asserted equality false: with `NDEBUG` it goes on and ends by
returning `invalid_arguments`, with assertions enabled it aborts there. -/
theorem init_assertion_violated :
    (init sample_flags release_runtime sample_engine context_mismatch_stream).out
        = outcome_t.returned status_t.invalid_arguments
      ∧ (∃ q, context_mismatch_stream.queue_ = some q ∧ q.get_context ≠ sample_engine.context)
      ∧ effect_t.assertion false
          ∈ (init sample_flags release_runtime sample_engine context_mismatch_stream).trace
      ∧ effect_t.assertion true
          ∉ (init sample_flags release_runtime sample_engine context_mismatch_stream).trace
      ∧ (init sample_flags sample_runtime sample_engine context_mismatch_stream).out
          = outcome_t.aborted
      ∧ effect_t.assertion false
          ∈ (init sample_flags sample_runtime sample_engine context_mismatch_stream).trace
      ∧ effect_t.assertion true
          ∉ (init sample_flags sample_runtime sample_engine context_mismatch_stream).trace := by
  refine ⟨by decide, ⟨⟨foreign_context, sample_device, 300⟩, rfl, by decide⟩, by decide,
    by decide, by decide, by decide, by decide⟩

/-! ## The GPU-capability step -/

/-- When `submit` on the stream's queue throws a `std::runtime_error`, the stream,
its dependency set included, is as before the call, `set_deps` was not called and
the message was handed to `error::wrap_c_api` unchanged together with the status
`runtime_error`; `interop_task` returns `runtime_error` exactly when that call
returns to the handler, and the exception of that call leaves `interop_task`
exactly when it throws. -/
theorem interop_task_on_runtime_error (rt : runtime_t) (e : sycl_cuda_engine_t)
    (s : sycl_cuda_stream_t) (q : queue) (task : task_t) (what : String)
    (hq : s.queue_ = some q)
    (hsub : rt.submit q task = submit_result.runtime_error what) :
    (interop_task rt e s task).stream = s
      ∧ (interop_task rt e s task).stream.deps = s.deps
      ∧ set_deps_count (interop_task rt e s task).trace = 0
      ∧ (interop_task rt e s task).trace
          = [effect_t.submit task, effect_t.wrap_c_api status_t.runtime_error what]
      ∧ ((interop_task rt e s task).out = outcome_t.returned status_t.runtime_error
          ↔ rt.wrap_c_api_returns status_t.runtime_error what = true)
      ∧ ((interop_task rt e s task).out = outcome_t.threw
          ↔ rt.wrap_c_api_returns status_t.runtime_error what = false) := by
  by_cases hw : rt.wrap_c_api_returns status_t.runtime_error what = true
  · simp [interop_task, hq, hsub, hw, set_deps_count]
  · have hw2 : rt.wrap_c_api_returns status_t.runtime_error what = false := by
      simpa using hw
    simp [interop_task, hq, hsub, hw2, set_deps_count]

/-- C7: `submit` on the queue of `adopted_stream` throws
`std::runtime_error("cuda failure")`, and `error::wrap_c_api`, as the wrapper of
the C API, returns only when it is handed the status `success`.  The handler of
lines 110-113 hands it `runtime_error`, so its exception leaves `interop_task` and
the `return status::runtime_error` of line 112 is not reached.  The dependency
set is unchanged (`[5]`) and `set_deps` was not called. -/
theorem interop_task_exception_escapes :
    (adopted_stream.queue_ = some sample_service_queue
        ∧ failing_runtime.submit sample_service_queue 3
          = submit_result.runtime_error "cuda failure"
        ∧ failing_runtime.wrap_c_api_returns status_t.success "cuda failure" = true
        ∧ failing_runtime.wrap_c_api_returns status_t.runtime_error "cuda failure" = false)
      ∧ (interop_task failing_runtime sample_engine adopted_stream 3).out = outcome_t.threw
      ∧ (interop_task failing_runtime sample_engine adopted_stream 3).out
          ≠ outcome_t.returned status_t.runtime_error
      ∧ (interop_task failing_runtime sample_engine adopted_stream 3).stream = adopted_stream
      ∧ (interop_task failing_runtime sample_engine adopted_stream 3).stream.deps = [5]
      ∧ (interop_task failing_runtime sample_engine adopted_stream 3).trace
          = [effect_t.submit 3, effect_t.wrap_c_api status_t.runtime_error "cuda failure"] := by
  refine ⟨⟨rfl, rfl, rfl, rfl⟩, rfl, ?_, rfl, rfl, rfl⟩
  intro h
  cases h

/-- C8: when `submit` on the stream's queue succeeds with event `ev`, `interop_task`
submits the body once, calls `set_deps` once with the single-element set `[ev]`,
so that the dependency set afterwards is exactly `[ev]` whatever it was before,
changes nothing else in the stream, and returns `success`. -/
theorem interop_task_success (rt : runtime_t) (e : sycl_cuda_engine_t)
    (s : sycl_cuda_stream_t) (q : queue) (task : task_t) (ev : sycl_event)
    (hq : s.queue_ = some q) (hsub : rt.submit q task = submit_result.ok ev) :
    (interop_task rt e s task).out = outcome_t.returned status_t.success
      ∧ (interop_task rt e s task).stream.deps = [ev]
      ∧ (interop_task rt e s task).stream = { s with deps := [ev] }
      ∧ (interop_task rt e s task).trace = [effect_t.submit task, effect_t.set_deps [ev]]
      ∧ submit_count (interop_task rt e s task).trace = 1
      ∧ set_deps_count (interop_task rt e s task).trace = 1 := by
  simp [interop_task, hq, hsub, set_deps, submit_count, set_deps_count]

theorem interop_task_success_witness :
    sample_runtime.submit ⟨sample_context, sample_device, 100⟩ 3 = submit_result.ok 4
      ∧ adopted_stream.deps = [5]
      ∧ (interop_task sample_runtime sample_engine adopted_stream 3).out
        = outcome_t.returned status_t.success
      ∧ (interop_task sample_runtime sample_engine adopted_stream 3).stream.deps = [4] :=
  have h := interop_task_success sample_runtime sample_engine adopted_stream
    ⟨sample_context, sample_device, 100⟩ 3 4 rfl rfl
  ⟨rfl, rfl, h.1, h.2.1⟩

end nvidia
